import Mathlib

/-
Verification of the folder-rs sharded search engine (native variant in
src/src/lib.rs, browser variant in src/folder-rs-web/src/lib.rs) against its
natural-language specification.

Modelling conventions:
- BTreeMap<String, V> is modelled as an association list (List (String × V))
  with first-match lookup and in-place replacement on insert.  Only the key set
  and per-key values are observable in the claims, never iteration order.
- HashSet<String> is modelled as a duplicate-free List String in insertion
  order (a determinization of the unspecified hash iteration order); claims
  about it are stated at the level of the underlying Finset.
- Machine integers are Nat with explicit `% 2 ^ 32` / `% 2 ^ 64` where the
  source wraps (u32 in the browser variant, 64-bit usize in the native one).
- f64 scores are modelled as ℚ; the floating-point log10 is abstracted as an
  explicit function parameter `lg : ℚ → ℚ` wherever a score is computed, and
  the real log10 (Real.logb 10) is used when two score formulas have to be
  told apart.
- Fallible steps return RResult: `err` models Err(()) / a rejected JS promise,
  `panicked` models a Rust panic (unwrap of a missing file, slice out of
  bounds, `%` by zero, BTreeMap index on a missing key).
- The blob source (filesystem / HTTP fetch + csv decode) is abstracted as an
  environment `Nat → Option rows` giving the decoded records of each shard;
  `none` means the artifact cannot be retrieved.
-/

namespace FolderRS

/-- Outcome of a fallible Rust computation: success, a returned error
(Err(()) in the native variant, a rejected promise in the browser variant),
or a runtime panic. -/
inductive RResult (α : Type) where
  | ok : α → RResult α
  | err : RResult α
  | panicked : RResult α
deriving DecidableEq

/-- A serde_json::Value as used by the engine: string leaves and nested
objects (the decoder in this repository only ever builds these two shapes). -/
inductive Value where
  | str : String → Value
  | obj : List (String × Value) → Value

/-- First-match lookup in an association-list map (BTreeMap::get). -/
def getValue {α : Type} : List (String × α) → String → Option α
  | [], _ => none
  | (k', v) :: rest, k => if k' = k then some v else getValue rest k

/-- Key-presence test in an association-list map (BTreeMap::contains_key). -/
def containsKey {α : Type} : List (String × α) → String → Bool
  | [], _ => false
  | (k', _) :: rest, k => if k' = k then true else containsKey rest k

/-- Insertion into an association-list map (BTreeMap::insert): replaces the
value of an existing key in place, otherwise appends. -/
def insertMap {α : Type} : List (String × α) → String → α → List (String × α)
  | [], k, v => [(k, v)]
  | (k', v') :: rest, k, v =>
    if k' = k then (k, v) :: rest else (k', v') :: insertMap rest k v

/-- Insertion into a shard-id set (BTreeMap<usize, bool>::insert, of which
only the key set is ever observed). -/
def insertSet (k : Nat) (s : List Nat) : List Nat :=
  if k ∈ s then s else s ++ [k]

/-- Per-token posting list (struct TermStat, src/src/lib.rs lines 579-598). -/
structure TermStat where
  document_ids : List String
deriving DecidableEq

/-- Per-document term frequencies (struct DocumentStat, src/src/lib.rs
lines 562-577). -/
structure DocumentStat where
  term_frequency : List (String × Nat)
deriving DecidableEq

/-- The in-memory index store (struct Index, src/src/lib.rs lines 19-29;
the browser variant adds a base_url, which like `name` only feeds the blob
paths abstracted away in the shard environments). -/
structure Index where
  documents : List (String × Value)
  document_stats : List (String × DocumentStat)
  term_stats : List (String × TermStat)
  shard_count : Nat
  loaded_documents_shards : List Nat
  loaded_document_stats_shards : List Nat
  loaded_term_stats_shards : List Nat

/-- One search hit (struct Hit): document id, score, and the document body. -/
structure Hit where
  id : String
  score : ℚ
  source : Value

/-- Search result (struct SearchResult, src/src/lib.rs lines 108-113; the
timing fields are wall-clock measurements and are not modelled). -/
structure SearchResult where
  count : Nat
  hits : List Hit

/-- Public accessor SearchResult::len (src/src/lib.rs lines 116-118): it
returns the `count` field. -/
def SearchResult.len (r : SearchResult) : Nat :=
  r.count

/-- Search options (struct SearchOptions); `from` is a Lean keyword, hence
the field name `from_`. -/
structure SearchOptions where
  size : Nat
  from_ : Nat

/-- DEFAULT_SEARCH_OPTIONS (src/src/lib.rs lines 127-131). -/
def DEFAULT_SEARCH_OPTIONS : SearchOptions :=
  { size := 10, from_ := 0 }

/-- Hash constant Q of the shard router. -/
def Q : Nat := 123456789

/-- Shard router of the native variant (calculate_shard_id, src/src/lib.rs
lines 403-414): accumulates Q + c*c per code point and multiplies by Q in
64-bit usize arithmetic, then reduces mod shard_count; `% 0` panics. -/
def calculate_shard_id (s : String) (shard_count : Nat) : RResult Nat :=
  if shard_count = 0 then .panicked
  else
    .ok ((((s.data.foldl (fun r c => (r + Q + c.toNat * c.toNat) % 2 ^ 64) 0)
      * Q) % 2 ^ 64) % shard_count)

/-- Shard router of the browser variant (calculate_shard_id,
src/folder-rs-web/src/lib.rs lines 383-394): same accumulation but in u32
wrap-around arithmetic, reduced mod (shard_count as u32). -/
def calculate_shard_id_web (s : String) (shard_count : Nat) : RResult Nat :=
  if shard_count % 2 ^ 32 = 0 then .panicked
  else
    .ok ((((s.data.foldl (fun r c => (r + Q + c.toNat * c.toNat) % 2 ^ 32) 0)
      * Q) % 2 ^ 32) % (shard_count % 2 ^ 32))

/-- Splitting a character list at delimiter characters, keeping empty
fragments, with the semantics of Rust's str::split (and of the analyzer's
split in both variants). -/
def splitChars (p : Char → Bool) : List Char → List (List Char)
  | [] => [[]]
  | c :: rest =>
    match splitChars p rest with
    | [] => [[]]
    | g :: gs => if p c then [] :: g :: gs else (c :: g) :: gs

/-- Query delimiter set of analyze: comma, ideographic comma, ideographic
space, ASCII space. -/
def DELIMITERS : List Char := [',', '、', '　', ' ']

/-- Punctuation stripped by the analyzer (PUNCTUATIONS in src/src/filters.rs
and src/folder-rs-web/src/lib.rs; the backquote is written by code point). -/
def PUNCTUATIONS : List Char :=
  ['!', '"', '#', '$', '%', '&', '(', ')', '*', '+', ',', '-', '.', '/',
   ':', ';', '<', '=', '>', '?', '@', '[', '\\', ']', '^', '_',
   Char.ofNat 96, Char.ofNat 123, '|', Char.ofNat 125, '~']

/-- Stop words dropped by the analyzer (STOP_WORDS in src/src/filters.rs). -/
def STOP_WORDS : List String :=
  ["a", "and", "are", "as", "at", "be", "but", "by", "for",
   "if", "in", "into", "is", "it", "no", "not", "of", "on",
   "or", "s", "such", "t", "that", "the", "their", "then",
   "there", "these", "they", "this", "to", "was", "will",
   "with", "www"]

/-- lowercase_filter (src/src/filters.rs): per-token lowercasing, modelled
character-wise (the corpus and queries here are ASCII). -/
def lowercase_filter (tokens : List String) : List String :=
  tokens.map (fun t => String.mk (t.data.map Char.toLower))

/-- punctuation_filter (src/src/filters.rs): removes every punctuation
character from each token. -/
def punctuation_filter (tokens : List String) : List String :=
  tokens.map (fun t => String.mk (t.data.filter (fun c => !PUNCTUATIONS.contains c)))

/-- stop_word_filter (src/src/filters.rs): drops stop-word tokens; the
source additionally re-applies the punctuation replacement to the survivors,
which is idempotent after punctuation_filter but is kept faithfully. -/
def stop_word_filter (tokens : List String) : List String :=
  (tokens.filter (fun t => !STOP_WORDS.contains t)).map
    (fun t => String.mk (t.data.filter (fun c => !PUNCTUATIONS.contains c)))

/-- analyze (src/src/lib.rs lines 239-245): split on the delimiter set, then
lowercase, strip punctuation, drop stop words. -/
def analyze (s : String) : List String :=
  stop_word_filter (punctuation_filter (lowercase_filter
    ((splitChars (fun c => DELIMITERS.contains c) s.data).map String.mk)))

/-- insert_term_stats_document_ids (src/src/lib.rs lines 514-522, identical
logic at src/folder-rs-web/src/lib.rs lines 514-523): extends the posting
list of a term, creating the entry if absent. -/
def insert_term_stats_document_ids (term_stats : List (String × TermStat))
    (term : String) (document_ids : List String) : List (String × TermStat) :=
  let term_stat :=
    match getValue term_stats term with
    | some term_stat => term_stat
    | none => { document_ids := [] }
  insertMap term_stats term { document_ids := term_stat.document_ids ++ document_ids }

/-- load_term_stats_from_shard of the native variant (src/src/lib.rs lines
487-499): skip if the shard is already in the term-stats loaded set,
otherwise fetch and decode the shard (abstracted by `env`, where `none`
means the artifact is missing, which the source unwraps into a panic), merge
every record, and mark the shard loaded in the term-stats set. -/
def load_term_stats_from_shard (env : Nat → Option (List (String × List String)))
    (st : Index) (shard_id : Nat) : RResult Index :=
  if shard_id ∈ st.loaded_term_stats_shards then .ok st
  else
    match env shard_id with
    | none => .panicked
    | some records =>
      .ok { st with
        term_stats := records.foldl
          (fun ts r => insert_term_stats_document_ids ts r.1 r.2) st.term_stats,
        loaded_term_stats_shards := insertSet shard_id st.loaded_term_stats_shards }

/-- load_term_stats_from_shard of the browser variant
(src/folder-rs-web/src/lib.rs lines 476-498): same guard and merge, but line
495 inserts the shard id into loaded_documents_shards instead of
loaded_term_stats_shards; a failed fetch rejects the promise (err). -/
def load_term_stats_from_shard_web (env : Nat → Option (List (String × List String)))
    (st : Index) (shard_id : Nat) : RResult Index :=
  if shard_id ∈ st.loaded_term_stats_shards then .ok st
  else
    match env shard_id with
    | none => .err
    | some records =>
      .ok { st with
        term_stats := records.foldl
          (fun ts r => insert_term_stats_document_ids ts r.1 r.2) st.term_stats,
        loaded_documents_shards := insertSet shard_id st.loaded_documents_shards }

/-- load_document_stats_from_shard plus its reader (src/src/lib.rs lines
416-453): guard on the document-stats loaded set, decode rows of
(document id, list of term:frequency pairs), insert each frequency with
last-write-wins, and mark the shard loaded. -/
def load_document_stats_from_shard
    (env : Nat → Option (List (String × List (String × Nat))))
    (st : Index) (shard_id : Nat) : RResult Index :=
  if shard_id ∈ st.loaded_document_stats_shards then .ok st
  else
    match env shard_id with
    | none => .panicked
    | some records =>
      .ok { st with
        document_stats := records.foldl
          (fun ds r => r.2.foldl
            (fun ds' tf =>
              let stat :=
                match getValue ds' r.1 with
                | some stat => stat
                | none => { term_frequency := [] }
              insertMap ds' r.1 { term_frequency := insertMap stat.term_frequency tf.1 tf.2 })
            ds) st.document_stats,
        loaded_document_stats_shards := insertSet shard_id st.loaded_document_stats_shards }

/-- load_documents_from_shard plus its reader (src/src/lib.rs lines
368-401): guard on the documents loaded set, insert every decoded
(document id, document body) row, and mark the shard loaded. -/
def load_documents_from_shard (env : Nat → Option (List (String × Value)))
    (st : Index) (shard_id : Nat) : RResult Index :=
  if shard_id ∈ st.loaded_documents_shards then .ok st
  else
    match env shard_id with
    | none => .panicked
    | some records =>
      .ok { st with
        documents := records.foldl (fun ds r => insertMap ds r.1 r.2) st.documents,
        loaded_documents_shards := insertSet shard_id st.loaded_documents_shards }

/-- HashSet::insert on the duplicate-free-list model of HashSet<String>. -/
def hsInsert (s : List String) (x : String) : List String :=
  if x ∈ s then s else s ++ [x]

/-- Building a HashSet<String> from the elements of a list (the per-token
`ids` set in find_documents). -/
def hsFromList (xs : List String) : List String :=
  xs.foldl hsInsert []

/-- HashSet::intersection collected into a new set: the elements of `s` that
are also in `t`. -/
def hsInter (s t : List String) : List String :=
  s.filter (fun x => x ∈ t)

/-- Loop body of find_documents (src/src/lib.rs lines 275-293): skip tokens
without a term-stat entry; if the accumulated set is empty adopt the token's
posting set, if it is a singleton break, otherwise intersect. -/
def find_documents_loop (term_stats : List (String × TermStat)) :
    List String → List String → List String
  | [], acc => acc
  | token :: rest, acc =>
    match getValue term_stats token with
    | none => find_documents_loop term_stats rest acc
    | some term_stat =>
      let ids := hsFromList term_stat.document_ids
      if acc.length = 0 then find_documents_loop term_stats rest ids
      else if acc.length = 1 then acc
      else find_documents_loop term_stats rest (hsInter acc ids)

/-- find_documents (src/src/lib.rs lines 271-299): the candidate ids for a
token list, starting from the empty set. -/
def find_documents (term_stats : List (String × TermStat))
    (tokens : List String) : List String :=
  find_documents_loop term_stats tokens []

/-- document_frequency (src/src/lib.rs lines 554-556): the posting-list
length of a token; the BTreeMap index panics when the token is absent. -/
def document_frequency (term_stats : List (String × TermStat))
    (token : String) : RResult ℚ :=
  match getValue term_stats token with
  | none => .panicked
  | some term_stat => .ok ((term_stat.document_ids.length : ℚ))

/-- inverse_document_frequency of the native variant (src/src/lib.rs lines
549-552): log10 of |documents| / df(token), with log10 abstracted as `lg`. -/
def inverse_document_frequency (lg : ℚ → ℚ) (documents : List (String × Value))
    (term_stats : List (String × TermStat)) (token : String) : RResult ℚ :=
  match document_frequency term_stats token with
  | .panicked => .panicked
  | .err => .err
  | .ok df => .ok (lg ((documents.length : ℚ) / df))

/-- inverse_document_frequency of the browser variant
(src/folder-rs-web/src/lib.rs lines 550-555): log10 of |document_stats| /
df(token). -/
def inverse_document_frequency_web (lg : ℚ → ℚ)
    (document_stats : List (String × DocumentStat))
    (term_stats : List (String × TermStat)) (token : String) : RResult ℚ :=
  match document_frequency term_stats token with
  | .panicked => .panicked
  | .err => .err
  | .ok df => .ok (lg ((document_stats.length : ℚ) / df))

/-- The idf formula exactly as the specification states it:
log10( |document_stats| / df(t) ) with df(t) the posting-list length of t
(spec section 4.7 step 4); stated over the same abstractions as the code. -/
def spec_idf_formula (lg : ℚ → ℚ) (document_stats : List (String × DocumentStat))
    (term_stats : List (String × TermStat)) (token : String) : RResult ℚ :=
  match getValue term_stats token with
  | none => .panicked
  | some term_stat =>
    .ok (lg ((document_stats.length : ℚ) / (term_stat.document_ids.length : ℚ)))

/-- fetch_document_stat (src/src/lib.rs lines 455-469): return the cached
stat, otherwise route the document id to its shard, load that document-stats
shard, and look again. -/
def fetch_document_stat (env : Nat → Option (List (String × List (String × Nat))))
    (st : Index) (document_id : String) : RResult (Option DocumentStat × Index) :=
  if containsKey st.document_stats document_id then
    .ok (getValue st.document_stats document_id, st)
  else
    match calculate_shard_id document_id st.shard_count with
    | .panicked => .panicked
    | .err => .err
    | .ok shard_id =>
      match load_document_stats_from_shard env st shard_id with
      | .panicked => .panicked
      | .err => .err
      | .ok st' => .ok (getValue st'.document_stats document_id, st')

/-- term_frequency (src/src/lib.rs lines 535-547): 0 when the document has
no stat entry or the token no frequency entry. -/
def term_frequency (env : Nat → Option (List (String × List (String × Nat))))
    (st : Index) (document_id : String) (token : String) : RResult (ℚ × Index) :=
  match fetch_document_stat env st document_id with
  | .panicked => .panicked
  | .err => .err
  | .ok (none, st') => .ok (0, st')
  | .ok (some document_stat, st') =>
    match getValue document_stat.term_frequency token with
    | none => .ok (0, st')
    | some n => .ok ((n : ℚ), st')

/-- Loop of calculate_score (src/src/lib.rs lines 524-533): accumulate
tf * idf over the query tokens, threading the document-stats loads. -/
def calculate_score_loop (lg : ℚ → ℚ)
    (env : Nat → Option (List (String × List (String × Nat))))
    (document_id : String) :
    List String → ℚ → Index → RResult (ℚ × Index)
  | [], score, st => .ok (score, st)
  | token :: rest, score, st =>
    match term_frequency env st document_id token with
    | .panicked => .panicked
    | .err => .err
    | .ok (tf, st') =>
      match inverse_document_frequency lg st'.documents st'.term_stats token with
      | .panicked => .panicked
      | .err => .err
      | .ok idf => calculate_score_loop lg env document_id rest (score + tf * idf) st'

/-- calculate_score (src/src/lib.rs lines 524-533). -/
def calculate_score (lg : ℚ → ℚ)
    (env : Nat → Option (List (String × List (String × Nat))))
    (st : Index) (document_id : String) (tokens : List String) :
    RResult (ℚ × Index) :=
  calculate_score_loop lg env document_id tokens 0 st

/-- Stable insertion step for Vec::sort_by with the ascending comparator
`a.score.partial_cmp(&b.score)` of the native sort_documents (src/src/lib.rs
line 318): an element sinks below every earlier element of smaller-or-equal
score, so equal scores keep their arrival order. -/
def insert_by_score_asc (x : String × ℚ) :
    List (String × ℚ) → List (String × ℚ)
  | [] => [x]
  | y :: ys => if y.2 ≤ x.2 then y :: insert_by_score_asc x ys else x :: y :: ys

/-- Stable insertion step for the descending comparator
`b.1.partial_cmp(&a.1)` of the browser sort_documents
(src/folder-rs-web/src/lib.rs line 291). -/
def insert_by_score_desc (x : String × ℚ) :
    List (String × ℚ) → List (String × ℚ)
  | [] => [x]
  | y :: ys => if x.2 ≤ y.2 then y :: insert_by_score_desc x ys else x :: y :: ys

/-- The pure sorting-and-unzipping tail of the native sort_documents
(src/src/lib.rs lines 318-325); Vec::sort_by is a stable sort and scores are
totally ordered, so the stable insertion sort computes the same list. -/
def sort_by_score (pairs : List (String × ℚ)) : List String × List ℚ :=
  let sorted := pairs.foldl (fun acc x => insert_by_score_asc x acc) []
  (sorted.map Prod.fst, sorted.map Prod.snd)

/-- The sorting-and-unzipping tail of the browser sort_documents
(src/folder-rs-web/src/lib.rs lines 291-292), descending. -/
def sort_by_score_web (pairs : List (String × ℚ)) : List String × List ℚ :=
  let sorted := pairs.foldl (fun acc x => insert_by_score_desc x acc) []
  (sorted.map Prod.fst, sorted.map Prod.snd)

/-- Scoring loop of sort_documents (src/src/lib.rs lines 310-316): one score
per candidate id, in candidate order, threading the store. -/
def score_loop (lg : ℚ → ℚ)
    (env : Nat → Option (List (String × List (String × Nat))))
    (tokens : List String) :
    List String → Index → RResult (List (String × ℚ) × Index)
  | [], st => .ok ([], st)
  | document_id :: rest, st =>
    match calculate_score lg env st document_id tokens with
    | .panicked => .panicked
    | .err => .err
    | .ok (score, st') =>
      match score_loop lg env tokens rest st' with
      | .panicked => .panicked
      | .err => .err
      | .ok (pairs, st'') => .ok ((document_id, score) :: pairs, st'')

/-- sort_documents of the native variant (src/src/lib.rs lines 301-328):
score every candidate, sort ascending by score (the source comparator), and
unzip into ids and scores. -/
def sort_documents (lg : ℚ → ℚ)
    (env : Nat → Option (List (String × List (String × Nat))))
    (st : Index) (document_ids : List String) (tokens : List String) :
    RResult (List String × List ℚ × Index) :=
  match score_loop lg env tokens document_ids st with
  | .panicked => .panicked
  | .err => .err
  | .ok (pairs, st') =>
    let sorted := sort_by_score pairs
    .ok (sorted.1, sorted.2, st')

/-- fetch_document (src/src/lib.rs lines 353-366): Err on an empty index,
otherwise route the id, load the owning documents shard, and look up the
body; a missing document is Err. -/
def fetch_document (env : Nat → Option (List (String × Value)))
    (st : Index) (document_id : String) : RResult (Value × Index) :=
  if st.shard_count = 0 then .err
  else
    match calculate_shard_id document_id st.shard_count with
    | .panicked => .panicked
    | .err => .err
    | .ok shard_id =>
      match load_documents_from_shard env st shard_id with
      | .panicked => .panicked
      | .err => .err
      | .ok st' =>
        match getValue st'.documents document_id with
        | some document => .ok (document, st')
        | none => .err

/-- Hit-building loop of fetch_hits (src/src/lib.rs lines 341-348) over the
already-taken slice, with `i` enumerating the slice and `scores[from + i]`
panicking when out of range. -/
def fetch_hits_loop (env : Nat → Option (List (String × Value)))
    (scores : List ℚ) (from_ : Nat) :
    List String → Nat → Index → RResult (List Hit × Index)
  | [], _, st => .ok ([], st)
  | document_id :: rest, i, st =>
    match fetch_document env st document_id with
    | .panicked => .panicked
    | .err => .err
    | .ok (document, st') =>
      match scores.get? (from_ + i) with
      | none => .panicked
      | some score =>
        match fetch_hits_loop env scores from_ rest (i + 1) st' with
        | .panicked => .panicked
        | .err => .err
        | .ok (hits, st'') =>
          .ok ({ id := document_id, score := score, source := document } :: hits, st'')

/-- fetch_hits of the native variant (src/src/lib.rs lines 330-351): return
no hits when size is 0 or from is past the end; otherwise clamp n to size
and take the slice document_ids[from..from+n], which panics when from+n
exceeds the candidate count. -/
def fetch_hits (env : Nat → Option (List (String × Value)))
    (st : Index) (document_ids : List String) (scores : List ℚ)
    (size : Nat) (from_ : Nat) : RResult (List Hit × Index) :=
  let n := document_ids.length
  if size = 0 ∨ n ≤ from_ then .ok ([], st)
  else
    let n' := if n > size then size else n
    if document_ids.length < from_ + n' then .panicked
    else fetch_hits_loop env scores from_ ((document_ids.drop from_).take n') 0 st

/-- Token loop of search_with_options (src/src/lib.rs lines 251-254): route
every token and load its term-stats shard before matching. -/
def load_query_term_shards (env : Nat → Option (List (String × List String))) :
    List String → Index → RResult Index
  | [], st => .ok st
  | token :: rest, st =>
    match calculate_shard_id token st.shard_count with
    | .panicked => .panicked
    | .err => .err
    | .ok shard_id =>
      match load_term_stats_from_shard env st shard_id with
      | .panicked => .panicked
      | .err => .err
      | .ok st' => load_query_term_shards env rest st'

/-- search_with_options of the native variant (src/src/lib.rs lines
247-269): analyze, hydrate term shards, match, score and sort, paginate, and
assemble the result with count set to the number of sorted candidates. -/
def search_with_options (lg : ℚ → ℚ)
    (envTs : Nat → Option (List (String × List String)))
    (envDs : Nat → Option (List (String × List (String × Nat))))
    (envDocs : Nat → Option (List (String × Value)))
    (opts : SearchOptions) (st : Index) (query : String) :
    RResult (SearchResult × Index) :=
  let tokens := analyze query
  match load_query_term_shards envTs tokens st with
  | .panicked => .panicked
  | .err => .err
  | .ok st1 =>
    let matched := find_documents st1.term_stats tokens
    match sort_documents lg envDs st1 matched tokens with
    | .panicked => .panicked
    | .err => .err
    | .ok (sorted, scores, st2) =>
      match fetch_hits envDocs st2 sorted scores opts.size opts.from_ with
      | .panicked => .panicked
      | .err => .err
      | .ok (hits, st3) => .ok ({ count := sorted.length, hits := hits }, st3)

/-- Loop of set_field (src/src/lib.rs lines 618-632) acting on the local
clone `it`: at each path segment the level counter is decremented and, only
when the current value is an object that ALREADY contains the segment, the
segment is overwritten with a fresh empty object (interior level) or the
cell string (leaf level); the loop never descends into the inserted child. -/
def set_field_loop (value : String) : Value → List String → Nat → Value
  | it, [], _ => it
  | it, field :: rest, level =>
    let level' := level - 1
    let it' :=
      match it with
      | Value.obj m =>
        if containsKey m field then
          if level' > 0 then Value.obj (insertMap m field (Value.obj []))
          else Value.obj (insertMap m field (Value.str value))
        else it
      | _ => it
    set_field_loop value it' rest level'

/-- set_field of the native variant (src/src/lib.rs lines 613-633): the loop
runs on `it`, a CLONE of the document (`let mut it: Value =
document.clone()`), and nothing is ever written back through the `&mut
document` parameter, so the document is returned unchanged. -/
def set_field (document : Value) (header : String) (value : String) : Value :=
  let fields := (splitChars (fun c => c = '.') header.data).map String.mk
  let _it := set_field_loop value document fields fields.length
  document

/-- document_from_record of the native variant (src/src/lib.rs lines
600-611): fold set_field over the headers beyond column 0 paired with the
row cells (the source indexes record[i], which panics on a short row; on
rows as long as the header the zip is the same pairing). -/
def document_from_record (headers : List String) (record : List String) : Value :=
  ((headers.zip record).drop 1).foldl
    (fun document hv => set_field document hv.1 hv.2) (Value.obj [])

/-- Intersection phase of the candidate fold exactly as the claim words it:
after S has been initialized by the FIRST present token, every later present
token first checks the early exit |S| = 1 and otherwise intersects. -/
def claimed_intersect (term_stats : List (String × TermStat)) (acc : Finset String) :
    List String → Finset String
  | [] => acc
  | token :: rest =>
    match getValue term_stats token with
    | none => claimed_intersect term_stats acc rest
    | some term_stat =>
      if acc.card = 1 then acc
      else claimed_intersect term_stats (acc ∩ term_stat.document_ids.toFinset) rest

/-- Candidate set exactly as the claim words it: absent tokens are skipped,
the first PRESENT token's posting set initializes S, and from then on the
fold only breaks at |S| = 1 or intersects. -/
def claimed_candidates (term_stats : List (String × TermStat)) :
    List String → Finset String
  | [] => ∅
  | token :: rest =>
    match getValue term_stats token with
    | none => claimed_candidates term_stats rest
    | some term_stat =>
      claimed_intersect term_stats term_stat.document_ids.toFinset rest

/-- One token step of the amended candidate fold (the formal definition in
spec section 4.7 step 3): a present token re-initializes S whenever S is
CURRENTLY empty — also after an intersection emptied it — breaks for good at
|S| = 1, and otherwise intersects; the Bool records the break. -/
def match_step (term_stats : List (String × TermStat))
    (s : Bool × Finset String) (token : String) : Bool × Finset String :=
  if s.1 then s
  else
    match getValue term_stats token with
    | none => s
    | some term_stat =>
      if s.2.card = 0 then (false, term_stat.document_ids.toFinset)
      else if s.2.card = 1 then (true, s.2)
      else (false, s.2 ∩ term_stat.document_ids.toFinset)

/-- The amended candidate set: left fold of match_step from the empty set. -/
def amended_candidates (term_stats : List (String × TermStat))
    (tokens : List String) : Finset String :=
  (tokens.foldl (match_step term_stats) (false, ∅)).2

/-- Shard environment with no reachable artifacts (every fetch fails). -/
def envTsNone : Nat → Option (List (String × List String)) := fun _ => none

/-- Document-stats shard environment with no reachable artifacts. -/
def envDsNone : Nat → Option (List (String × List (String × Nat))) := fun _ => none

/-- Documents shard environment with no reachable artifacts. -/
def envDocsNone : Nat → Option (List (String × Value)) := fun _ => none

/-- A freshly opened one-shard index store with nothing loaded. -/
def idxEmpty : Index :=
  { documents := [], document_stats := [], term_stats := [], shard_count := 1,
    loaded_documents_shards := [], loaded_document_stats_shards := [],
    loaded_term_stats_shards := [] }

/-- An index store whose shard_count is 0 (the state Index::new() builds and
the state the spec's EmptyIndex error is about). -/
def idxZero : Index :=
  { documents := [], document_stats := [], term_stats := [], shard_count := 0,
    loaded_documents_shards := [], loaded_document_stats_shards := [],
    loaded_term_stats_shards := [] }

lemma shard_fold_congr : ∀ (l : List Char) (a b : Nat), a % 2 ^ 32 = b % 2 ^ 32 →
    (l.foldl (fun r c => (r + Q + c.toNat * c.toNat) % 2 ^ 64) a) % 2 ^ 32
      = (l.foldl (fun r c => (r + Q + c.toNat * c.toNat) % 2 ^ 32) b) % 2 ^ 32
  | [], _, _, h => h
  | c :: cs, a, b, h => by
    simp only [List.foldl_cons]
    apply shard_fold_congr cs
    have hd : (2 : Nat) ^ 32 ∣ 2 ^ 64 := pow_dvd_pow 2 (by norm_num)
    rw [Nat.mod_mod_of_dvd _ hd, Nat.mod_mod_of_dvd _ (dvd_refl _)]
    exact Nat.ModEq.add_right _ (Nat.ModEq.add_right Q h)

lemma hsInsert_nodup (s : List String) (x : String) (h : s.Nodup) :
    (hsInsert s x).Nodup := by
  unfold hsInsert
  split
  · exact h
  · rename_i hx
    simp [List.nodup_append, h, hx]

lemma hsInsert_toFinset (s : List String) (x : String) :
    (hsInsert s x).toFinset = insert x s.toFinset := by
  unfold hsInsert
  split
  · rename_i hx
    rw [Finset.insert_eq_self.mpr (List.mem_toFinset.mpr hx)]
  · ext a
    simp [List.mem_toFinset, or_comm]

lemma foldl_hsInsert_nodup (xs : List String) :
    ∀ s : List String, s.Nodup → (xs.foldl hsInsert s).Nodup := by
  induction xs with
  | nil => intro s h; exact h
  | cons x rest ih => intro s h; exact ih _ (hsInsert_nodup s x h)

lemma foldl_hsInsert_toFinset (xs : List String) :
    ∀ s : List String, (xs.foldl hsInsert s).toFinset = s.toFinset ∪ xs.toFinset := by
  induction xs with
  | nil => intro s; simp
  | cons x rest ih =>
    intro s
    rw [List.foldl_cons, ih, hsInsert_toFinset]
    ext a
    simp
    try tauto

lemma hsFromList_nodup (xs : List String) : (hsFromList xs).Nodup :=
  foldl_hsInsert_nodup xs [] List.nodup_nil

lemma hsFromList_toFinset (xs : List String) : (hsFromList xs).toFinset = xs.toFinset := by
  unfold hsFromList
  rw [foldl_hsInsert_toFinset]
  simp

lemma hsInter_nodup (s t : List String) (h : s.Nodup) : (hsInter s t).Nodup :=
  h.filter _

lemma hsInter_toFinset (s t : List String) :
    (hsInter s t).toFinset = s.toFinset ∩ t.toFinset := by
  ext a
  simp [hsInter, List.mem_toFinset, List.mem_filter]

lemma foldl_match_step_done (ts : List (String × TermStat)) (S : Finset String) :
    ∀ tokens : List String, (tokens.foldl (match_step ts) (true, S)).2 = S := by
  intro tokens
  induction tokens with
  | nil => rfl
  | cons t rest ih =>
    rw [List.foldl_cons]
    have hstep : match_step ts (true, S) t = (true, S) := by simp [match_step]
    rw [hstep]
    exact ih

lemma find_documents_loop_eq (ts : List (String × TermStat)) :
    ∀ (tokens : List String) (acc : List String), acc.Nodup →
    (find_documents_loop ts tokens acc).toFinset
      = (tokens.foldl (match_step ts) (false, acc.toFinset)).2 := by
  intro tokens
  induction tokens with
  | nil => intro acc _; rfl
  | cons t rest ih =>
    intro acc hnd
    have hcard : acc.toFinset.card = acc.length := List.toFinset_card_of_nodup hnd
    rw [List.foldl_cons]
    cases hgv : getValue ts t with
    | none =>
      have hstep : match_step ts (false, acc.toFinset) t = (false, acc.toFinset) := by
        simp [match_step, hgv]
      rw [hstep]
      simp only [find_documents_loop, hgv]
      exact ih acc hnd
    | some stat =>
      simp only [find_documents_loop, hgv]
      by_cases h0 : acc.length = 0
      · have hstep : match_step ts (false, acc.toFinset) t
            = (false, stat.document_ids.toFinset) := by
          simp [match_step, hgv, hcard, h0]
        rw [hstep, if_pos h0, ih _ (hsFromList_nodup _), hsFromList_toFinset]
      · by_cases h1 : acc.length = 1
        · have hstep : match_step ts (false, acc.toFinset) t = (true, acc.toFinset) := by
            simp [match_step, hgv, hcard, h0, h1]
          rw [hstep, if_neg h0, if_pos h1, foldl_match_step_done]
        · have hstep : match_step ts (false, acc.toFinset) t
              = (false, acc.toFinset ∩ stat.document_ids.toFinset) := by
            simp [match_step, hgv, hcard, h0, h1]
          rw [hstep, if_neg h0, if_neg h1,
            ih _ (hsInter_nodup _ _ hnd), hsInter_toFinset, hsFromList_toFinset]

lemma fetch_hits_loop_length (env : Nat → Option (List (String × Value)))
    (scores : List ℚ) (from_ : Nat) :
    ∀ (slice : List String) (i : Nat) (st : Index) (hits : List Hit) (st' : Index),
    fetch_hits_loop env scores from_ slice i st = .ok (hits, st') →
    hits.length = slice.length := by
  intro slice
  induction slice with
  | nil =>
    intro i st hits st' h
    simp only [fetch_hits_loop] at h
    cases h
    rfl
  | cons id rest ih =>
    intro i st hits st' h
    simp only [fetch_hits_loop] at h
    split at h
    · cases h
    · cases h
    · split at h
      · cases h
      · split at h
        · cases h
        · cases h
        · rename_i st1 hrec
          cases h
          simp [ih _ _ _ _ hrec]

lemma fetch_hits_length (env : Nat → Option (List (String × Value)))
    (st : Index) (ids : List String) (scores : List ℚ) (size from_ : Nat)
    (hits : List Hit) (st' : Index)
    (h : fetch_hits env st ids scores size from_ = .ok (hits, st')) :
    hits.length ≤ size := by
  simp only [fetch_hits] at h
  split at h
  · cases h
    exact Nat.zero_le _
  · split at h
    · split at h
      · cases h
      · have hlen := fetch_hits_loop_length env scores from_ _ _ _ _ _ h
        rw [hlen, List.length_take, List.length_drop]
        omega
    · split at h
      · cases h
      · have hlen := fetch_hits_loop_length env scores from_ _ _ _ _ _ h
        rw [hlen, List.length_take, List.length_drop]
        omega

/-- Store snapshot for the idf comparison: two loaded documents but only one
loaded document-stat entry (documents and document-stats shards hydrate
independently, so the two counts routinely differ). -/
def docsC1 : List (String × Value) := [("d1", Value.obj []), ("d2", Value.obj [])]

/-- The single loaded document-stat entry of the idf snapshot. -/
def dstatsC1 : List (String × DocumentStat) := [("d1", ⟨[("lunar", 3)]⟩)]

/-- Loaded documents for the witness snapshot where both counts agree. -/
def docsC1w : List (String × Value) := [("d1", Value.obj [])]

/-- Term stats giving token "lunar" the posting list [d1], so df = 1. -/
def tsC1 : List (String × TermStat) := [("lunar", ⟨["d1"]⟩)]

/-- Claim C1 (counterexample): at a store with 2 loaded documents, 1 loaded
document-stat entry and df("lunar") = 1, the native
inverse_document_frequency feeds 2/1 — the loaded DOCUMENTS count over df —
to log10, while the formula claimed by the spec feeds 1/1, and log10 tells
the two apart, so the claimed idf(t) = log10(|document_stats|/df(t)) is
false for the native variant. -/
theorem idf_formula_counterexample :
    inverse_document_frequency (fun q => q) docsC1 tsC1 "lunar" = .ok (2 / 1)
    ∧ spec_idf_formula (fun q => q) dstatsC1 tsC1 "lunar" = .ok (1 / 1)
    ∧ Real.logb 10 (((2 : ℚ) / 1 : ℚ) : ℝ) ≠ Real.logb 10 (((1 : ℚ) / 1 : ℚ) : ℝ) := by
  refine ⟨rfl, rfl, ?_⟩
  have h2 : (((2 : ℚ) / 1 : ℚ) : ℝ) = 2 := by norm_num
  have h1 : (((1 : ℚ) / 1 : ℚ) : ℝ) = 1 := by norm_num
  rw [h2, h1, Real.logb_one]
  exact ne_of_gt (Real.logb_pos (by norm_num) (by norm_num))

/-- Claim C1 (amended): the browser variant's idf is exactly the spec
formula log10(|document_stats| / df(t)); the native variant instead divides
the loaded DOCUMENTS count by df(t), so it agrees with the spec formula
exactly when the two loaded counts coincide. -/
theorem idf_formula_amended (lg : ℚ → ℚ) (documents : List (String × Value))
    (document_stats : List (String × DocumentStat))
    (term_stats : List (String × TermStat)) (token : String)
    (h : documents.length = document_stats.length) :
    inverse_document_frequency_web lg document_stats term_stats token
      = spec_idf_formula lg document_stats term_stats token
    ∧ inverse_document_frequency lg documents term_stats token
      = spec_idf_formula lg document_stats term_stats token := by
  constructor
  · simp only [inverse_document_frequency_web, spec_idf_formula, document_frequency]
    cases getValue term_stats token <;> rfl
  · simp only [inverse_document_frequency, spec_idf_formula, document_frequency, h]
    cases getValue term_stats token <;> rfl

/-- Witness for the amended C1 theorem at a concrete store with one loaded
document and one loaded document-stat entry. -/
theorem idf_formula_amended_witness :
    docsC1w.length = dstatsC1.length
    ∧ (inverse_document_frequency_web (fun q => q) dstatsC1 tsC1 "lunar"
        = spec_idf_formula (fun q => q) dstatsC1 tsC1 "lunar"
      ∧ inverse_document_frequency (fun q => q) docsC1w tsC1 "lunar"
        = spec_idf_formula (fun q => q) dstatsC1 tsC1 "lunar") :=
  ⟨rfl, idf_formula_amended (fun q => q) docsC1w dstatsC1 tsC1 "lunar" rfl⟩

/-- Claim C2: at the candidate scores of the spec's own scenario (d1 scored
3, d2 scored 1), the native sort_by_score orders d2 (score 1) BEFORE d1
(score 3) — ascending, so the hits list of the native variant is not
descending by score — while the browser variant orders d1 before d2
(descending) as the claim and the spec mandate. -/
theorem sort_documents_sorts_ascending :
    sort_by_score [("d1", 3), ("d2", 1)] = (["d2", "d1"], [1, 3])
    ∧ sort_by_score_web [("d1", 3), ("d2", 1)] = (["d1", "d2"], [3, 1]) :=
  ⟨rfl, rfl⟩

/-- Term-stats shard environment with exactly one shard, shard 0, holding
the posting list lunar -> [d1, d2]. -/
def envTsC3 : Nat → Option (List (String × List String)) :=
  fun shard_id => if shard_id = 0 then some [("lunar", ["d1", "d2"])] else none

/-- State after the browser variant loads term-stats shard 0 once: the
postings arrived, but the shard id was recorded in the DOCUMENTS loaded set. -/
def idxC3web : Index :=
  { idxEmpty with
    term_stats := [("lunar", (⟨["d1", "d2"]⟩ : TermStat))],
    loaded_documents_shards := [0] }

/-- State after the browser variant loads term-stats shard 0 twice: the
shard was fetched again and every posting is duplicated. -/
def idxC3web2 : Index :=
  { idxEmpty with
    term_stats := [("lunar", (⟨["d1", "d2", "d1", "d2"]⟩ : TermStat))],
    loaded_documents_shards := [0] }

/-- State after the native variant loads term-stats shard 0: the shard id is
recorded in the term-stats loaded set, as the claim demands. -/
def idxC3nat : Index :=
  { idxEmpty with
    term_stats := [("lunar", (⟨["d1", "d2"]⟩ : TermStat))],
    loaded_term_stats_shards := [0] }

/-- Claim C3: a successful browser-variant load of term-stats shard 0 does
NOT insert 0 into the term-stats loaded set — it lands in the documents
loaded set instead — so a second load of the same shard fetches and ingests
it again, duplicating every posting; the native variant marks the correct
set, and its second load returns immediately even when every artifact has
become unreachable (proving it does not fetch). -/
theorem term_stats_load_marks_documents_category :
    load_term_stats_from_shard_web envTsC3 idxEmpty 0 = .ok idxC3web
    ∧ (0 ∉ idxC3web.loaded_term_stats_shards ∧ 0 ∈ idxC3web.loaded_documents_shards)
    ∧ load_term_stats_from_shard_web envTsC3 idxC3web 0 = .ok idxC3web2
    ∧ getValue idxC3web2.term_stats "lunar" = some (⟨["d1", "d2", "d1", "d2"]⟩ : TermStat)
    ∧ load_term_stats_from_shard envTsC3 idxEmpty 0 = .ok idxC3nat
    ∧ 0 ∈ idxC3nat.loaded_term_stats_shards
    ∧ load_term_stats_from_shard envTsNone idxC3nat 0 = .ok idxC3nat :=
  ⟨rfl, ⟨by decide, by decide⟩, rfl, rfl, rfl, by decide, rfl⟩

/-- Claim C4: decoding the row d1,"Lunar New Year" against the header row
id,title yields the EMPTY object in the native variant — set_field mutates a
clone and never writes through the document — instead of the claimed
document mapping "title" to the cell string. -/
theorem document_from_record_returns_empty :
    document_from_record ["id", "title"] ["d1", "Lunar New Year"] = Value.obj []
    ∧ Value.obj [] ≠ Value.obj [("title", Value.str "Lunar New Year")] :=
  ⟨rfl, by simp⟩

/-- Claim C5 (counterexample): the native (64-bit usize) and browser (u32
wrap-around) shard routers disagree on the one-character string "a" with 10
shards — the native variant routes it to shard 2, the browser variant to
shard 0 — so the claim that both variants route every string identically is
false. -/
theorem calculate_shard_id_variants_disagree :
    calculate_shard_id "a" 10 = .ok 2
    ∧ calculate_shard_id_web "a" 10 = .ok 0
    ∧ (RResult.ok 2 : RResult Nat) ≠ .ok 0 :=
  ⟨rfl, rfl, by simp⟩

/-- Claim C5 (amended): both variants accumulate (sum of Q + c*c) * Q and
reduce mod shard_count, the browser variant in 32-bit and the native variant
in 64-bit wrap-around arithmetic; the two accumulators agree modulo 2^32, so
the variants route identically whenever shard_count divides 2^32, but for
other shard counts they may disagree. -/
theorem calculate_shard_id_amended (s : String) (shard_count : Nat)
    (h1 : 0 < shard_count) (h2 : shard_count < 2 ^ 32) (h3 : shard_count ∣ 2 ^ 32) :
    calculate_shard_id s shard_count = calculate_shard_id_web s shard_count := by
  have hne : shard_count ≠ 0 := Nat.pos_iff_ne_zero.mp h1
  have hmod : shard_count % 2 ^ 32 = shard_count := Nat.mod_eq_of_lt h2
  have hd : (2 : Nat) ^ 32 ∣ 2 ^ 64 := pow_dvd_pow 2 (by norm_num)
  simp only [calculate_shard_id, calculate_shard_id_web, hmod]
  rw [if_neg hne, if_neg hne]
  refine congrArg RResult.ok ?_
  have hF := shard_fold_congr s.data 0 0 rfl
  have hmul :
      ((s.data.foldl (fun r c => (r + Q + c.toNat * c.toNat) % 2 ^ 64) 0) * Q) % 2 ^ 32
        = ((s.data.foldl (fun r c => (r + Q + c.toNat * c.toNat) % 2 ^ 32) 0) * Q) % 2 ^ 32 := by
    rw [Nat.mul_mod, hF, ← Nat.mul_mod]
  calc (((s.data.foldl (fun r c => (r + Q + c.toNat * c.toNat) % 2 ^ 64) 0) * Q) % 2 ^ 64)
        % shard_count
      = ((((s.data.foldl (fun r c => (r + Q + c.toNat * c.toNat) % 2 ^ 64) 0) * Q) % 2 ^ 64)
          % 2 ^ 32) % shard_count := (Nat.mod_mod_of_dvd _ h3).symm
    _ = (((s.data.foldl (fun r c => (r + Q + c.toNat * c.toNat) % 2 ^ 64) 0) * Q) % 2 ^ 32)
          % shard_count := by rw [Nat.mod_mod_of_dvd _ hd]
    _ = (((s.data.foldl (fun r c => (r + Q + c.toNat * c.toNat) % 2 ^ 32) 0) * Q) % 2 ^ 32)
          % shard_count := by rw [hmul]

/-- Witness for the amended C5 theorem: with 4 shards (a divisor of 2^32)
both routers agree on "lunar". -/
theorem calculate_shard_id_amended_witness :
    0 < 4 ∧ 4 < 2 ^ 32 ∧ (4 ∣ 2 ^ 32)
    ∧ calculate_shard_id "lunar" 4 = calculate_shard_id_web "lunar" 4 :=
  ⟨by norm_num, by norm_num, ⟨2 ^ 30, by norm_num⟩,
    calculate_shard_id_amended "lunar" 4 (by norm_num) (by norm_num) ⟨2 ^ 30, by norm_num⟩⟩

/-- Claim C6: with two sorted candidates, the default size 10 and offset
from = 1 — inputs on which the claim requires the one remaining hit — the
native fetch_hits panics: it takes the slice document_ids[1..1+2] of a
two-element vector, because n is only clamped to size, never to the
remaining length. -/
theorem fetch_hits_slice_panics :
    fetch_hits envDocsNone idxEmpty ["d1", "d2"] [3, 1] 10 1 = .panicked :=
  rfl

/-- Matching fixture for the candidate-fold counterexample: three tokens
with pairwise disjoint posting lists. -/
def tsC7 : List (String × TermStat) :=
  [("x", (⟨["a", "b"]⟩ : TermStat)),
   ("y", (⟨["c", "d"]⟩ : TermStat)),
   ("z", (⟨["e", "f"]⟩ : TermStat))]

/-- Claim C7 (counterexample): on tokens x, y, z with disjoint postings
{a,b}, {c,d}, {e,f}, the fold described by the claim — initialize S at the
FIRST present token, then only break or intersect — yields the empty set,
but find_documents returns {e,f}: after the intersection with {c,d} empties
S, the loop re-initializes S from the next posting list. -/
theorem find_documents_counterexample :
    find_documents tsC7 ["x", "y", "z"] = ["e", "f"]
    ∧ claimed_candidates tsC7 ["x", "y", "z"] = ∅
    ∧ (find_documents tsC7 ["x", "y", "z"]).toFinset
        ≠ claimed_candidates tsC7 ["x", "y", "z"] :=
  ⟨rfl, by decide, by decide⟩

/-- Claim C7 (amended): the candidate set equals the fold in token order in
which absent tokens are skipped, a present token's posting set
(re)initializes S whenever S is CURRENTLY empty — in particular after an
intersection emptied it — the fold stops for good as soon as |S| = 1, and
otherwise S is intersected with the token's posting set. -/
theorem find_documents_amended (ts : List (String × TermStat)) (tokens : List String) :
    (find_documents ts tokens).toFinset = amended_candidates ts tokens := by
  unfold find_documents amended_candidates
  simpa using find_documents_loop_eq ts tokens [] List.nodup_nil

/-- Claim C8: on the one-token query "lunar" with shard_count = 0, the
native search panics (calculate_shard_id reduces modulo 0) while routing the
first token — before any term-stats fetch — instead of returning an
EmptyIndex error; no error value is produced at all. -/
theorem search_empty_index_panics :
    search_with_options (fun q => q) envTsNone envDsNone envDocsNone
      DEFAULT_SEARCH_OPTIONS idxZero "lunar" = .panicked :=
  rfl

/-- Claim C9: whenever size = 0 or from is at least the number of
candidates, fetch_hits returns the empty hit list and the store exactly as
it received it — in particular the documents map and the loaded-documents
shard set are unchanged — without consulting the shard environment. -/
theorem fetch_hits_frame (env : Nat → Option (List (String × Value)))
    (st : Index) (ids : List String) (scores : List ℚ) (size from_ : Nat)
    (h : size = 0 ∨ ids.length ≤ from_) :
    fetch_hits env st ids scores size from_ = .ok ([], st) := by
  simp only [fetch_hits]
  rw [if_pos h]

/-- Witness for the C9 frame theorem at size 0 on a concrete store. -/
theorem fetch_hits_frame_witness :
    (0 = 0 ∨ (["d1"] : List String).length ≤ 5)
    ∧ fetch_hits envDocsNone idxEmpty ["d1"] [1] 0 5 = .ok ([], idxEmpty) :=
  ⟨Or.inl rfl, fetch_hits_frame envDocsNone idxEmpty ["d1"] [1] 0 5 (Or.inl rfl)⟩

/-- Claim C10: every SearchResult produced by search_with_options answers
len() with its count field (the number of matched candidates), and whenever
the requested size is smaller than that count, len() strictly exceeds the
number of hits actually returned. -/
theorem search_result_len_spec (lg : ℚ → ℚ)
    (envTs : Nat → Option (List (String × List String)))
    (envDs : Nat → Option (List (String × List (String × Nat))))
    (envDocs : Nat → Option (List (String × Value)))
    (opts : SearchOptions) (st : Index) (query : String)
    (r : SearchResult) (st' : Index)
    (h : search_with_options lg envTs envDs envDocs opts st query = .ok (r, st')) :
    SearchResult.len r = r.count
    ∧ (opts.size < r.count → r.hits.length < SearchResult.len r) := by
  simp only [search_with_options] at h
  split at h
  · cases h
  · cases h
  · split at h
    · cases h
    · cases h
    · split at h
      · cases h
      · cases h
      · rename_i hits st3 hfetch
        cases h
        refine ⟨rfl, fun hsz => ?_⟩
        have hle := fetch_hits_length envDocs _ _ _ _ _ _ _ hfetch
        simp only [SearchResult.len] at hsz ⊢
        omega

/-- Term-stats shard environment for the C10 witness: shard 0 holds only the
posting list of the token "moon", so the query "lunar" matches nothing. -/
def envTsW : Nat → Option (List (String × List String)) :=
  fun shard_id => if shard_id = 0 then some [("moon", ["d9"])] else none

/-- Store state after the C10 witness search: term-stats shard 0 hydrated,
nothing else touched. -/
def idxW : Index :=
  { idxEmpty with
    term_stats := [("moon", (⟨["d9"]⟩ : TermStat))],
    loaded_term_stats_shards := [0] }

/-- Witness for the C10 theorem on a concrete completed search. -/
theorem search_result_len_spec_witness :
    search_with_options (fun q => q) envTsW envDsNone envDocsNone
      DEFAULT_SEARCH_OPTIONS idxEmpty "lunar"
      = .ok ({ count := 0, hits := [] }, idxW)
    ∧ (SearchResult.len { count := 0, hits := [] }
        = ({ count := 0, hits := [] } : SearchResult).count
      ∧ (DEFAULT_SEARCH_OPTIONS.size < ({ count := 0, hits := [] } : SearchResult).count →
          ({ count := 0, hits := [] } : SearchResult).hits.length
            < SearchResult.len { count := 0, hits := [] })) :=
  ⟨rfl, search_result_len_spec (fun q => q) envTsW envDsNone envDocsNone
    DEFAULT_SEARCH_OPTIONS idxEmpty "lunar" { count := 0, hits := [] } idxW rfl⟩

end FolderRS
